import Mathlib

/-
Verification of the client-side session / cache-coherence layer of a
full-stack FastAPI + React template.

The embedding models:
  * the Token Store (the durable "access_token" slot) and the bearer-token
    resolver installed in `frontend/src/main.tsx`;
  * the route guard of `frontend/src/routes/_layout.tsx`;
  * the TanStack-Query mutations declared in the components
    (DeleteAlert, ChangePassword, UserInformation, AddUser,
    DeleteConfirmation, ResetPassword), each as a record of the effect
    lists its onSuccess / onError / onSettled callbacks perform;
  * the settings page's tab selection (`routes/_layout/settings.tsx`).

Mutation settlement follows the library's callback order: on success the
onSuccess callback runs, on error the onError callback runs, and in both
cases onSettled runs afterwards.
-/

namespace FastApiTemplate

/-! ## Token store and session primitives -/

/-- The durable token slot: `localStorage`'s "access_token" key, `none`
when the key is absent. -/
abbrev TokenStore := Option String

/-- The bearer-token resolver installed in `main.tsx`:
`OpenAPI.TOKEN = async () => localStorage.getItem("access_token") || ""`.
It is a function of the store state at call time (nothing is cached). -/
def tokenResolver (store : TokenStore) : String :=
  store.getD ""

/-- Modelled from the spec: the API Gateway Client (the generated client's
request builder, not under src/) attaches `Authorization: Bearer <token>`
when the resolved token is present (non-empty) and omits the header
otherwise. -/
def authHeader (store : TokenStore) : Option String :=
  let t := tokenResolver store
  if t = "" then none else some ("Bearer " ++ t)

/-- Modelled from the spec: `isLoggedIn` from `hooks/useAuth` (not under
src/) is a pure function of Token Store presence. -/
def isLoggedIn (store : TokenStore) : Bool :=
  store.isSome

/-- Modelled from the spec: Session Controller `logout()` performs
Token Store.clear() and never calls the server. -/
def logoutClear (_store : TokenStore) : TokenStore :=
  none

/-- Session-level operations observable on the Token Store: a successful
login stores the returned token, a logout clears the slot, and an ordinary
outbound request leaves the store untouched. -/
inductive SessionOp
  | login (token : String)
  | logout
  | request
  deriving DecidableEq, Repr

/-- Effect of one session operation on the Token Store.  Login stores the
token (spec: Token Store.set), logout clears it via `logoutClear`. -/
def applyOp : TokenStore → SessionOp → TokenStore
  | _, .login t => some t
  | st, .logout => logoutClear st
  | st, .request => st

/-- Run a sequence of session operations from an initial store state. -/
def runOps (st : TokenStore) (ops : List SessionOp) : TokenStore :=
  ops.foldl applyOp st

/-! ## Route guard (`routes/_layout.tsx`) -/

/-- Result of attempting to navigate to a guarded route. -/
inductive NavResult
  | redirected (dest : String)
  | rendered
  deriving DecidableEq, Repr

/-- `Route.beforeLoad` of the `/_layout` route:
`if (!isLoggedIn()) throw redirect({ to: "/login" })`.
Returns the thrown redirect target, or `none` when navigation proceeds. -/
def layoutBeforeLoad (st : TokenStore) : Option String :=
  if !(isLoggedIn st) then some "/login" else none

/-- Navigation to an authenticated route: the router runs `beforeLoad`
first; a thrown redirect aborts the navigation before the guarded subtree
renders, otherwise the subtree renders. -/
def navigateAuthed (st : TokenStore) : NavResult :=
  match layoutBeforeLoad st with
  | some r => .redirected r
  | none => .rendered

/-! ## Mutations as effect lists -/

/-- The outcome a mutation's server call settles with; a failure carries
the error body's `detail` rendered to a string. -/
inductive Outcome
  | success
  | failure (errDetail : String)
  deriving DecidableEq, Repr

/-- An observable side effect performed by a mutation callback. -/
inductive Effect
  | invalidate (key : String)
  | setQueryData (key : String) (payload : String)
  | toast (title description status : String)
  | closeDialog
  | resetForm
  | logout
  | navigate (dest : String)
  deriving DecidableEq, Repr

/-- A TanStack-Query mutation's callbacks, as the effect lists they
perform.  `onError` receives the error detail string. -/
structure Mutation where
  onSuccess : List Effect
  onError : String → List Effect
  onSettled : List Effect

/-- Settlement of a mutation: the success or error callback runs first,
then `onSettled` runs on both paths. -/
def settle (m : Mutation) : Outcome → List Effect
  | .success => m.onSuccess ++ m.onSettled
  | .failure d => m.onError d ++ m.onSettled

/-- The cache keys a list of effects invalidates, in order. -/
def invalidations (es : List Effect) : List String :=
  es.filterMap fun e =>
    match e with
    | .invalidate k => some k
    | _ => none

/-- The direct cache writes (`setQueryData`-style write-throughs) a list
of effects performs. -/
def cacheWrites (es : List Effect) : List (String × String) :=
  es.filterMap fun e =>
    match e with
    | .setQueryData k p => some (k, p)
    | _ => none

/-- The server requests issued by the mutation functions. -/
inductive ServerRequest
  | deleteItem (id : Nat)
  | deleteUser (userId : Nat)
  | updatePasswordMe
  | updateUserMe
  | createUser
  | resetPasswordReq (newPassword token : String)
  deriving DecidableEq, Repr

/-- `deleteEntity` of `components/Common/DeleteAlert.tsx`: dispatches on
the `type` string, throwing on anything other than "Item" or "User". -/
def deleteEntity (type : String) (id : Nat) : Except String ServerRequest :=
  if type = "Item" then .ok (.deleteItem id)
  else if type = "User" then .ok (.deleteUser id)
  else .error ("Unexpected type: " ++ type)

/-- The delete mutation of `components/Common/DeleteAlert.tsx`.  The toasts
use `type.toLowerCase()`; `onSettled` invalidates
`[type === "Item" ? "items" : "users"]`. -/
def deleteAlertMutation (type : String) : Mutation where
  onSuccess :=
    [.toast "Success"
      ("The " ++ type.toLower ++ " was deleted successfully.") "success",
     .closeDialog]
  onError := fun _ =>
    [.toast "An error occurred."
      ("An error occurred while deleting the " ++ type.toLower ++ ".") "error"]
  onSettled :=
    [.invalidate (if type = "Item" then "items" else "users")]

/-- The change-password mutation of
`components/UserSettings/ChangePassword.tsx` (`updatePasswordMe`): a toast
and form reset on success, a toast on error, and no `onSettled` callback. -/
def changePasswordMutation : Mutation where
  onSuccess := [.toast "Success!" "Password updated." "success", .resetForm]
  onError := fun d => [.toast "Something went wrong." d "error"]
  onSettled := []

/-- The update-me mutation of
`components/UserSettings/UserInformation.tsx` (`updateUserMe`): `onSettled`
invalidates "users" then "currentUser". -/
def userInformationMutation : Mutation where
  onSuccess := [.toast "Success!" "User updated successfully." "success"]
  onError := fun d => [.toast "Something went wrong." d "error"]
  onSettled := [.invalidate "users", .invalidate "currentUser"]

/-- The create-user mutation of `components/Admin/AddUser.tsx`
(`createUser`): `onSettled` invalidates "users". -/
def addUserMutation : Mutation where
  onSuccess :=
    [.toast "Success!" "User created successfully." "success",
     .resetForm, .closeDialog]
  onError := fun d => [.toast "Something went wrong." d "error"]
  onSettled := [.invalidate "users"]

/-- The delete-own-account mutation of
`components/UserSettings/DeleteConfirmation.tsx`: on success it toasts,
calls `logout()` and closes the dialog; `onSettled` invalidates only
"currentUser". -/
def deleteConfirmationMutation : Mutation where
  onSuccess :=
    [.toast "Success" "Your account has been successfully deleted." "success",
     .logout, .closeDialog]
  onError := fun d => [.toast "Something went wrong." d "error"]
  onSettled := [.invalidate "currentUser"]

/-- The reset-password mutation of `routes/reset-password.tsx`: on success
it toasts, resets the form and navigates to "/login"; no `onSettled`. -/
def resetPasswordMutation : Mutation where
  onSuccess :=
    [.toast "Success!" "Password updated." "success",
     .resetForm, .navigate "/login"]
  onError := fun d => [.toast "Something went wrong." d "error"]
  onSettled := []

/-- Modelled from the spec: the create-Item form (`AddItem`, not under
src/); per the affected-entry mapping its settlement invalidates
"items" only. -/
def addItemMutation : Mutation where
  onSuccess := []
  onError := fun _ => []
  onSettled := [.invalidate "items"]

/-- Modelled from the spec: the edit-Item form (`EditItem`, not under
src/); per the affected-entry mapping its settlement invalidates
"items" only. -/
def editItemMutation : Mutation where
  onSuccess := []
  onError := fun _ => []
  onSettled := [.invalidate "items"]

/-- Modelled from the spec: the edit-User form (`EditUser`, not under
src/); per the affected-entry mapping its settlement invalidates
"users" only. -/
def editUserMutation : Mutation where
  onSuccess := []
  onError := fun _ => []
  onSettled := [.invalidate "users"]

/-! ## Reset-password mutation function (`routes/reset-password.tsx`) -/

/-- The `resetPassword` mutation function: it reads the "token" query
parameter (`none` when absent); `if (!token) return` makes it resolve
without a server call when the parameter is absent or empty (JS
falsiness), otherwise it issues the reset-password request. -/
def resetPasswordFn (urlToken : Option String) (newPassword : String) :
    Option ServerRequest :=
  match urlToken with
  | none => none
  | some t => if t = "" then none else some (.resetPasswordReq newPassword t)

/-- One full run of the reset-password mutation: when the mutation
function issues no request it resolves, so the mutation settles on its
success path; otherwise the settlement follows the server's outcome
(`serverResult`).  The first component records whether a server request
was issued. -/
def runResetPassword (urlToken : Option String) (newPassword : String)
    (serverResult : ServerRequest → Outcome) : Bool × List Effect :=
  match resetPasswordFn urlToken newPassword with
  | none => (false, settle resetPasswordMutation .success)
  | some req => (true, settle resetPasswordMutation (serverResult req))

/-! ## Applying effects to client state -/

/-- The client state the settlement effects act on: the Token Store and
the set of cache keys marked stale (in invalidation order). -/
structure ClientState where
  token : TokenStore
  stale : List String
  deriving DecidableEq, Repr

/-- How one effect changes the client state: `invalidate` marks a key
stale, `logout` clears the token (spec §4.3: Token Store.clear());
toasts, dialog or form actions and navigation do not touch this state. -/
def applyEffect (s : ClientState) : Effect → ClientState
  | .invalidate k => { s with stale := s.stale ++ [k] }
  | .setQueryData _ _ => s
  | .logout => { s with token := logoutClear s.token }
  | _ => s

/-- Apply a list of effects in order. -/
def applyEffects (s : ClientState) (es : List Effect) : ClientState :=
  es.foldl applyEffect s

/-! ## Settings page tabs (`routes/_layout/settings.tsx`) -/

/-- One entry of `tabsConfig`: a tab title and the component it renders. -/
structure TabEntry where
  title : String
  component : String
  deriving DecidableEq, Repr

/-- `tabsConfig` of `routes/_layout/settings.tsx`. -/
def tabsConfig : List TabEntry :=
  [⟨"My profile", "UserInformation"⟩,
   ⟨"Password", "ChangePassword"⟩,
   ⟨"Appearance", "Appearance"⟩,
   ⟨"Danger zone", "DeleteAccount"⟩]

/-- The current user record cached under "currentUser". -/
structure UserPublic where
  id : Nat
  email : String
  full_name : Option String
  is_superuser : Bool
  is_active : Bool
  deriving DecidableEq, Repr

/-- `finalTabs` of `UserSettings`:
`currentUser?.is_superuser ? tabsConfig.slice(0, 3) : tabsConfig` —
optional chaining on an absent user yields a falsy value, selecting the
full list. -/
def finalTabs (currentUser : Option UserPublic) : List TabEntry :=
  match currentUser with
  | some u => if u.is_superuser then tabsConfig.take 3 else tabsConfig
  | none => tabsConfig

end FastApiTemplate

namespace FastApiTemplate

/-- Outbound requests leave the token slot unchanged, so the store still
holds the token after any number of them. -/
theorem runOps_replicate_request (t : String) (n : Nat) :
    runOps (some t) (List.replicate n .request) = some t := by
  induction n with
  | zero => rfl
  | succ n ih =>
    simpa [runOps, List.replicate_succ, applyOp] using ih

/-- Running a concatenated operation sequence is running the two parts in
order. -/
theorem runOps_append (st : TokenStore) (xs ys : List SessionOp) :
    runOps st (xs ++ ys) = runOps (runOps st xs) ys := by
  simp [runOps, List.foldl_append]

/-- Claim C1: for a delete mutation on a User or an Item, on settlement —
success or failure — exactly the mapped collection key is invalidated:
"users" for a User delete and "items" for an Item delete. -/
theorem delete_mutation_invalidates_mapped_key (o : Outcome) :
    invalidations (settle (deleteAlertMutation "User") o) = ["users"] ∧
    invalidations (settle (deleteAlertMutation "Item") o) = ["items"] := by
  cases o <;> simp [deleteAlertMutation, settle, invalidations]

/-- Counterexample to claim C2: the change-password mutation of
`ChangePassword.tsx` invalidates no cache entries at all — on neither the
success nor the failure settlement path does it invalidate "users" or
"currentUser". -/
theorem changePassword_invalidates_nothing_cex :
    invalidations (settle changePasswordMutation Outcome.success) = [] ∧
    invalidations (settle changePasswordMutation (Outcome.failure "detail")) = [] :=
  ⟨rfl, rfl⟩

/-- Claim C2 (amended): the change-password mutation performs no cache
invalidation and no cache write on settlement; it only shows a toast (and
resets the form on success). -/
theorem changePassword_no_cache_invalidation (o : Outcome) :
    invalidations (settle changePasswordMutation o) = [] ∧
    cacheWrites (settle changePasswordMutation o) = [] := by
  cases o <;> simp [changePasswordMutation, settle, invalidations, cacheWrites]

/-- Claim C3: when `isLoggedIn()` is false at navigation time, `beforeLoad`
aborts the navigation with a redirect to "/login", so the guarded subtree
is never rendered. -/
theorem route_guard_redirects_when_not_logged_in (st : TokenStore)
    (h : isLoggedIn st = false) :
    navigateAuthed st = NavResult.redirected "/login" ∧
    navigateAuthed st ≠ NavResult.rendered := by
  have hb : layoutBeforeLoad st = some "/login" := by
    simp [layoutBeforeLoad, h]
  exact ⟨by simp [navigateAuthed, hb], by simp [navigateAuthed, hb]⟩

/-- Witness for claim C3 at the empty token store. -/
theorem route_guard_redirects_witness :
    isLoggedIn (none : TokenStore) = false ∧
    (navigateAuthed none = NavResult.redirected "/login" ∧
     navigateAuthed none ≠ NavResult.rendered) :=
  ⟨rfl, route_guard_redirects_when_not_logged_in none rfl⟩

/-- Claim C4: the token resolver is a function of the Token Store state at
call time; after logout clears the store the resolved token is empty and
the Authorization header of the very next request is omitted (and a stored
token is always resolved as itself, never a cached copy). -/
theorem logout_clears_token_for_next_request (st : TokenStore) :
    tokenResolver (logoutClear st) = "" ∧
    authHeader (logoutClear st) = none ∧
    (∀ t : String, tokenResolver (some t) = t) :=
  ⟨rfl, rfl, fun _ => rfl⟩

/-- Claim C5: the successful settlement of the delete-own-account mutation
performs a logout, invalidates exactly the "currentUser" cache entry and
nothing else, and leaves the token cleared so that `isLoggedIn` is false
afterwards. -/
theorem delete_own_account_success_effects (s : ClientState) :
    Effect.logout ∈ settle deleteConfirmationMutation Outcome.success ∧
    invalidations (settle deleteConfirmationMutation Outcome.success)
      = ["currentUser"] ∧
    (applyEffects s (settle deleteConfirmationMutation Outcome.success)).token
      = none ∧
    isLoggedIn (applyEffects s
      (settle deleteConfirmationMutation Outcome.success)).token = false := by
  refine ⟨by decide, rfl, ?_, ?_⟩ <;>
    simp [applyEffects, settle, deleteConfirmationMutation, applyEffect,
      logoutClear, isLoggedIn]

/-- Claim C6: the update-me mutation invalidates both "users" and
"currentUser" on settlement, on the success and the failure path alike. -/
theorem update_me_invalidates_users_and_currentUser (o : Outcome) :
    invalidations (settle userInformationMutation o)
      = ["users", "currentUser"] := by
  cases o <;> simp [settle, userInformationMutation, invalidations]

/-- Claim C7: no mutation's settlement writes a payload into the cache:
for every mutation of the client (delete User/Item, change password,
update-me, create User, delete own account, reset password, and the
spec-modelled create/edit Item and edit User forms) the list of direct
cache writes is empty on every settlement path. -/
theorem mutations_never_write_through (type : String) (o : Outcome) :
    cacheWrites (settle (deleteAlertMutation type) o) = [] ∧
    cacheWrites (settle changePasswordMutation o) = [] ∧
    cacheWrites (settle userInformationMutation o) = [] ∧
    cacheWrites (settle addUserMutation o) = [] ∧
    cacheWrites (settle deleteConfirmationMutation o) = [] ∧
    cacheWrites (settle resetPasswordMutation o) = [] ∧
    cacheWrites (settle addItemMutation o) = [] ∧
    cacheWrites (settle editItemMutation o) = [] ∧
    cacheWrites (settle editUserMutation o) = [] := by
  cases o <;>
    simp [settle, cacheWrites, deleteAlertMutation, changePasswordMutation,
      userInformationMutation, addUserMutation, deleteConfirmationMutation,
      resetPasswordMutation, addItemMutation, editItemMutation,
      editUserMutation]

/-- Claim C8: starting unauthenticated, a successful login followed (after
any number of ordinary requests) by a logout: `isLoggedIn` is false before
the login, true at every point strictly between login and logout, and
false after the logout. -/
theorem login_logout_isLoggedIn_trace (t : String) (n k : Nat)
    (h1 : 1 ≤ k) (h2 : k ≤ n + 1) :
    isLoggedIn (runOps none []) = false ∧
    isLoggedIn (runOps none
      ((SessionOp.login t ::
        (List.replicate n .request ++ [.logout])).take k)) = true ∧
    isLoggedIn (runOps none
      (SessionOp.login t ::
        (List.replicate n .request ++ [.logout]))) = false := by
  refine ⟨rfl, ?_, ?_⟩
  · obtain ⟨m, rfl⟩ : ∃ m, k = m + 1 :=
      ⟨k - 1, (Nat.succ_pred_eq_of_pos h1).symm⟩
    have hm : m ≤ n := Nat.succ_le_succ_iff.mp h2
    have htake : (List.replicate n SessionOp.request ++ [SessionOp.logout]).take m
        = List.replicate m SessionOp.request := by
      rw [List.take_append_of_le_length (by simpa using hm),
        List.take_replicate, Nat.min_eq_left hm]
    have h3 : runOps none
        (SessionOp.login t :: List.replicate m SessionOp.request) = some t := by
      simpa [runOps, applyOp] using runOps_replicate_request t m
    rw [List.take_succ_cons, htake, h3]
    rfl
  · have hsplit : SessionOp.login t ::
        (List.replicate n SessionOp.request ++ [SessionOp.logout])
        = ([SessionOp.login t] ++ List.replicate n SessionOp.request)
          ++ [SessionOp.logout] := by simp
    have h4 : runOps none
        ([SessionOp.login t] ++ List.replicate n SessionOp.request) = some t := by
      rw [runOps_append]
      exact runOps_replicate_request t n
    rw [hsplit, runOps_append, h4]
    rfl

/-- Witness for claim C8: login "tok", one request, logout. -/
theorem login_logout_isLoggedIn_trace_witness :
    (1 ≤ 1) ∧ (1 ≤ 1 + 1) ∧
    (isLoggedIn (runOps none []) = false ∧
     isLoggedIn (runOps none
       ((SessionOp.login "tok" ::
         (List.replicate 1 .request ++ [.logout])).take 1)) = true ∧
     isLoggedIn (runOps none
       (SessionOp.login "tok" ::
         (List.replicate 1 .request ++ [.logout]))) = false) :=
  ⟨by decide, by decide,
    login_logout_isLoggedIn_trace "tok" 1 1 (by decide) (by decide)⟩

/-- Claim C9: when the "token" query parameter is absent, the
reset-password mutation issues no server request yet settles on its
success path: success toast, form reset, and navigation to "/login". -/
theorem reset_password_missing_token_success_path (newPassword : String)
    (serverResult : ServerRequest → Outcome) :
    runResetPassword none newPassword serverResult
      = (false,
         [Effect.toast "Success!" "Password updated." "success",
          Effect.resetForm, Effect.navigate "/login"]) := rfl

/-- Claim C10: on the settings page a superuser gets only the first three
tabs and no "Danger zone"; a non-superuser, or an absent current user,
gets all four tabs including "Danger zone". -/
theorem settings_tabs_by_superuser (id : Nat) (email : String)
    (fn : Option String) (su act : Bool) :
    (finalTabs (some ⟨id, email, fn, su, act⟩)).map TabEntry.title
      = (if su then ["My profile", "Password", "Appearance"]
         else ["My profile", "Password", "Appearance", "Danger zone"]) ∧
    (("Danger zone" ∈ (finalTabs (some ⟨id, email, fn, su, act⟩)).map
        TabEntry.title) ↔ su = false) ∧
    (finalTabs none).map TabEntry.title
      = ["My profile", "Password", "Appearance", "Danger zone"] := by
  cases su <;> simp [finalTabs, tabsConfig]

end FastApiTemplate
